import Mathlib

/-!
Verification development for the booking-confirmation notification module
(`backend/app/services/notifications.py`).

The Python module is shallowly embedded below.  Dictionaries coming from the
data store are modelled as Lean structures whose fields are `Option`-valued
(`none` = key absent / value `None`); Python truthiness of strings ("" and
`None` are falsy) is modelled explicitly; Python exceptions are modelled with
`Except PyExc`; the external collaborators (settings, data-store client, email
provider, PDF library availability) are modelled as an explicit environment
`StoreEnv`, and the observable calls the workflow makes (email dispatch,
payment update) are recorded as a list of `Event`s.
-/

/-- Exceptions the embedded code can raise, named after the Python
exceptions / raise sites they model. -/
inductive PyExc where
  | attributeError
  | valueError
  | configError
  | sdkError
  | dispatchError
  | updateError
deriving DecidableEq

/-- Python truthiness of an optional string: `None` and `""` are falsy. -/
def truthyStr : Option String → Bool
  | none => false
  | some s => ¬ (s = "")

/-- Python `a or default` for an optional string `a` (with `""`/`None` falsy)
and a string default. -/
def pyOrStr (a : Option String) (default : String) : String :=
  match a with
  | some s => if s = "" then default else s
  | none => default

/-- Models `a or b` followed by the `if not result` guard used for the
recipient: the result is `some` exactly when `a or b` is truthy. -/
def pyOr2 (a b : Option String) : Option String :=
  if truthyStr a then a else if truthyStr b then b else none

/-- Python `str.capitalize()`: first character upper-cased, the rest
lower-cased (ASCII is all that the repository's data uses). -/
def pyCapitalize (s : String) : String :=
  match s.toList with
  | [] => ""
  | c :: cs => String.mk (c.toUpper :: cs.map Char.toLower)

/-- Numeric value of a decimal digit character. -/
def digitVal (c : Char) : Nat := c.toNat - 48

/-- Value of a list of decimal digit characters. -/
def digitsVal (cs : List Char) : Nat :=
  cs.foldl (fun a c => 10 * a + digitVal c) 0

/-- A Python float, as the sign bit plus the non-negative magnitude.  IEEE
floats distinguish `-0.0` from `0.0` and `%.2f` prints the sign
(`float("-0")` renders as `"-0.00"`), so the sign must be carried separately
from the rational magnitude. -/
structure PyFloat where
  neg : Bool
  mag : ℚ
deriving DecidableEq

/-- Models Python `float(s)` on a string, restricted to plain decimal
literals: optional sign, integer digits, optional `.` and fraction digits
(at least one digit overall); a leading `-` yields a negative float even for
a zero magnitude (`float("-0")` is `-0.0`).  Exponents, `inf`/`nan`,
underscores and surrounding whitespace — none of which the repository's data
uses — are not modelled and yield `none` (a `ValueError`). -/
def parseFloat (s : String) : Option PyFloat :=
  let cs := s.toList
  let signAndRest : Bool × List Char :=
    match cs with
    | '+' :: r => (false, r)
    | '-' :: r => (true, r)
    | r => (false, r)
  let neg := signAndRest.1
  let cs1 := signAndRest.2
  let intDigits := cs1.takeWhile Char.isDigit
  let rest := cs1.dropWhile Char.isDigit
  match rest with
  | [] =>
      if intDigits = [] then none
      else some ⟨neg, mkRat (Int.ofNat (digitsVal intDigits)) 1⟩
  | '.' :: r2 =>
      let fracDigits := r2.takeWhile Char.isDigit
      let rest2 := r2.dropWhile Char.isDigit
      if rest2 ≠ [] then none
      else if intDigits = [] ∧ fracDigits = [] then none
      else
        let k := fracDigits.length
        let mag := digitsVal intDigits * 10 ^ k + digitsVal fracDigits
        some ⟨neg, mkRat (Int.ofNat mag) (10 ^ k)⟩
  | _ => none

/-- Round the fraction `num / den` (`den` positive) to the nearest integer,
ties to even — the rounding `%.2f` formatting applies. -/
def roundHalfEvenFrac (num den : ℤ) : ℤ :=
  let f := Int.fdiv num den
  let r2 := 2 * Int.fmod num den
  if r2 < den then f
  else if den < r2 then f + 1
  else if f % 2 = 0 then f else f + 1

/-- Models the Python format spec `.2f` on the embedded floats: sign (kept
even for `-0.0`), integer part, `.`, exactly two fraction digits.
(Binary-float rounding artifacts are outside the model; the repository's
amounts are plain decimal values.) -/
def fmt2 (f : PyFloat) : String :=
  let sign := if f.neg then "-" else ""
  let c := (roundHalfEvenFrac (Int.ofNat (f.mag.num.natAbs * 100))
    (Int.ofNat f.mag.den)).toNat
  sign ++ toString (c / 100) ++ "." ++
    (if c % 100 < 10 then "0" else "") ++ toString (c % 100)

/-- Characters `str.splitlines` treats as line boundaries. -/
def isLineBreak (c : Char) : Bool :=
  c = '\n' ∨ c = '\r' ∨ c.toNat = 0x0b ∨ c.toNat = 0x0c ∨
  c.toNat = 0x1c ∨ c.toNat = 0x1d ∨ c.toNat = 0x1e ∨
  c.toNat = 0x85 ∨ c.toNat = 0x2028 ∨ c.toNat = 0x2029

/-- Worker for `pySplitlines`: `acc` holds the current line reversed. -/
def splitlinesGo : List Char → List Char → List String
  | [], acc => if acc = [] then [] else [String.mk acc.reverse]
  | '\r' :: '\n' :: rest, acc => String.mk acc.reverse :: splitlinesGo rest []
  | c :: rest, acc =>
      if isLineBreak c then String.mk acc.reverse :: splitlinesGo rest []
      else splitlinesGo rest (c :: acc)

/-- Models Python `str.splitlines()` (no trailing empty line, `\r\n` is a
single boundary). -/
def pySplitlines (s : String) : List String :=
  splitlinesGo s.toList []

/-- Models the call `iso_str.replace("Z", "+00:00")` from `_format_datetime`:
every occurrence of the single character `Z` is replaced. -/
def replaceZ (s : String) : String :=
  String.join (s.toList.map fun c => if c = 'Z' then "+00:00" else String.mk [c])

/-- The fields of a parsed `datetime` that the module's `strftime` format
string reads.  The UTC-offset component of the parsed string is validated but
not stored, since `strftime` never reads it and `fromisoformat` performs no
timezone conversion. -/
structure PyDateTime where
  year : Nat
  month : Nat
  day : Nat
  hour : Nat
  minute : Nat
  second : Nat
deriving DecidableEq

/-- Whether a year is a Gregorian leap year. -/
def isLeapYear (y : Nat) : Bool :=
  (y % 4 = 0 ∧ ¬ y % 100 = 0) ∨ y % 400 = 0

/-- Days in a month of a given year. -/
def daysInMonth (y m : Nat) : Nat :=
  if m = 2 then (if isLeapYear y then 29 else 28)
  else if m = 4 ∨ m = 6 ∨ m = 9 ∨ m = 11 then 30
  else 31

/-- Parse exactly two decimal digits. -/
def parse2 : List Char → Option (Nat × List Char)
  | a :: b :: rest =>
      if a.isDigit ∧ b.isDigit then some (10 * digitVal a + digitVal b, rest)
      else none
  | _ => none

/-- Parse exactly four decimal digits. -/
def parse4 (cs : List Char) : Option (Nat × List Char) := do
  let (hi, cs1) ← parse2 cs
  let (lo, cs2) ← parse2 cs1
  some (100 * hi + lo, cs2)

/-- Parse a literal character. -/
def parseChar (c : Char) : List Char → Option (List Char)
  | x :: rest => if x = c then some rest else none
  | _ => none

/-- Parse the optional fractional-seconds part of the time: Python ≤ 3.10
accepts exactly three (`.fff`) or six (`.ffffff`) fraction digits and
rejects every other count; the value is discarded like in
`_format_datetime`, which never reads microseconds. -/
def parseFraction : List Char → Option (List Char)
  | '.' :: rest =>
      let digits := rest.takeWhile Char.isDigit
      if digits.length = 3 ∨ digits.length = 6 then
        some (rest.dropWhile Char.isDigit)
      else none
  | rest => some rest

/-- Parse the time part `HH[:MM[:SS[.fff[fff]]]]`: minutes and seconds are
optional (an hour-only time such as `"10"` is valid), and a fraction is only
permitted after full `HH:MM:SS`. -/
def parseTime (cs : List Char) : Option ((Nat × Nat × Nat) × List Char) := do
  let (h, cs1) ← parse2 cs
  match cs1 with
  | ':' :: cs2 => do
      let (m, cs3) ← parse2 cs2
      match cs3 with
      | ':' :: cs4 => do
          let (s, cs5) ← parse2 cs4
          let cs6 ← parseFraction cs5
          some ((h, m, s), cs6)
      | rest => some ((h, m, 0), rest)
  | rest => some ((h, 0, 0), rest)

/-- Parse the seconds part of a UTC offset, `[:SS[.ffffff]]`: in the ≤ 3.10
grammar an offset's fraction must be exactly six digits (offset string
lengths 5, 8 or 15). -/
def parseOffsetSeconds : List Char → Option (Nat × List Char)
  | ':' :: cs => do
      let (s, cs1) ← parse2 cs
      match cs1 with
      | '.' :: cs2 =>
          let digits := cs2.takeWhile Char.isDigit
          if digits.length = 6 then some (s, cs2.dropWhile Char.isDigit)
          else none
      | rest => some (s, rest)
  | rest => some (0, rest)

/-- Parse and validate the optional UTC offset `±HH:MM[:SS[.ffffff]]` (hours
and minutes are mandatory for an offset).  The components are 2-digit
numbers up to 99; the `timezone` constructor then requires the resulting
offset to be strictly less than 24 hours. -/
def parseOffset : List Char → Option (List Char)
  | [] => some []
  | c :: rest =>
      if c = '+' ∨ c = '-' then do
        let (h, cs1) ← parse2 rest
        let cs2 ← parseChar ':' cs1
        let (m, cs3) ← parse2 cs2
        let (s, cs4) ← parseOffsetSeconds cs3
        if h * 3600 + m * 60 + s < 86400 then some cs4 else none
      else none

/-- Models `datetime.fromisoformat` on the strings this module feeds it: the
documented Python ≤ 3.10 grammar (the version family the module's
preliminary `"Z" → "+00:00"` replacement is written for)
`YYYY-MM-DD[*HH[:MM[:SS[.fff[fff]]]]][±HH:MM[:SS[.ffffff]]]` — date,
optionally any single separator character and a time whose minutes and
seconds are optional, then an optional UTC offset.  Components are digit
pairs; the `datetime` constructor's range checks (month, day, hour ≤ 23,
minute ≤ 59, second ≤ 59) and the `timezone` constructor's offset bound are
applied after parsing, exactly as the library does.  (The undocumented
leniency of `int()` toward surrounding whitespace inside components is not
modelled.) -/
def fromisoformat (str : String) : Option PyDateTime := do
  let cs := str.toList
  let (y, cs1) ← parse4 cs
  let cs2 ← parseChar '-' cs1
  let (mo, cs3) ← parse2 cs2
  let cs4 ← parseChar '-' cs3
  let (d, cs5) ← parse2 cs4
  let dateOk := 1 ≤ y ∧ 1 ≤ mo ∧ mo ≤ 12 ∧ 1 ≤ d ∧ d ≤ daysInMonth y mo
  match cs5 with
  | [] => if dateOk then some ⟨y, mo, d, 0, 0, 0⟩ else none
  | _ :: cs6 => do
      let ((h, mi, s), cs7) ← parseTime cs6
      let cs8 ← parseOffset cs7
      if cs8 = [] ∧ dateOk ∧ h ≤ 23 ∧ mi ≤ 59 ∧ s ≤ 59 then
        some ⟨y, mo, d, h, mi, s⟩
      else none

/-- English month name, as `strftime`'s `%B` renders it. -/
def monthName : Nat → String
  | 1 => "January"
  | 2 => "February"
  | 3 => "March"
  | 4 => "April"
  | 5 => "May"
  | 6 => "June"
  | 7 => "July"
  | 8 => "August"
  | 9 => "September"
  | 10 => "October"
  | 11 => "November"
  | 12 => "December"
  | _ => ""

/-- Zero-pad a number to two digits. -/
def pad2 (n : Nat) : String :=
  (if n < 10 then "0" else "") ++ toString n

/-- Models `dt.strftime("%B %d, %Y %I:%M %p")`: month name, zero-padded day,
year, zero-padded 12-hour clock hour, minutes, and AM/PM. -/
def strftimeLabel (dt : PyDateTime) : String :=
  let h12 := if dt.hour % 12 = 0 then 12 else dt.hour % 12
  monthName dt.month ++ " " ++ pad2 dt.day ++ ", " ++ toString dt.year ++ " " ++
    pad2 h12 ++ ":" ++ pad2 dt.minute ++ " " ++
    (if dt.hour < 12 then "AM" else "PM")

/-- Embeds `_format_datetime`: parse the string (after replacing `"Z"` with
`"+00:00"`) and render it with `strftime`, returning the input unchanged when
parsing fails. -/
def format_datetime (iso_str : String) : String :=
  match fromisoformat (replaceZ iso_str) with
  | some dt => strftimeLabel dt
  | none => iso_str

/-- The `spaces` sub-dictionary of a booking row: fields are
present-or-absent. -/
structure Space where
  name : Option String
  location : Option String
deriving DecidableEq

/-- `booking.get("total_amount", 0)` can see an absent/`None` value, a number
or a numeric string; this sum type covers those shapes. -/
inductive AmountVal where
  | noneV
  | num (q : ℚ)
  | str (s : String)
deriving DecidableEq

/-- A booking row, as the workflow reads it (`dict.get` with absent = `none`).
The attendee count is rendered through an f-string, so it is kept as a
number. -/
structure Booking where
  id : Option String
  user_id : Option String
  spaces : Option Space
  start_time : Option String
  end_time : Option String
  attendees_count : Option Nat
  total_amount : AmountVal
  status : Option String
deriving DecidableEq

/-- A payment row, as the workflow reads it. -/
structure Payment where
  payment_status : Option String
  transaction_id : Option String
  receipt_url : Option String
deriving DecidableEq

/-- A user-profile row, as the workflow reads it. -/
structure Profile where
  email : Option String
  full_name : Option String
deriving DecidableEq

/-- Python truthiness of a profile dictionary: an empty dict is falsy.  A
profile row with neither field present plays the role of `{}`. -/
def Profile.truthy (p : Profile) : Bool :=
  p.email.isSome || p.full_name.isSome

/-- Models `float(booking.get("total_amount", 0) or 0)`: absent/`None` and
falsy values (`0`, `-0.0`, `""`) are replaced by the int `0`, giving the
positive float `0.0`; a stored number keeps its sign; a non-empty string goes
through `float()` (keeping a `"-0"` string's negative sign), which raises
`ValueError` when the string is not numeric. -/
def pyFloatAmount : AmountVal → Except PyExc PyFloat
  | .noneV => .ok ⟨false, 0⟩
  | .num q =>
      .ok (if q.num < 0 then ⟨true, mkRat (Int.ofNat q.num.natAbs) q.den⟩
        else ⟨false, q⟩)
  | .str s =>
      if s = "" then .ok ⟨false, 0⟩
      else
        match parseFloat s with
        | some f => .ok f
        | none => .error .valueError

/-- A PDF attachment as handed to the provider: filename plus the rendered
document (the PDF byte payload is modelled by its list of text lines). -/
structure Attachment where
  filename : String
  content : List String
deriving DecidableEq

/-- The observable external calls the workflow makes: an email-provider send
(`resend.Emails.send`) and a data-store payment update
(`update_payment_status`).  A recorded event means the call was made; whether
it succeeded is governed by the environment's `dispatchOk` / `updateOk`. -/
inductive Event where
  | dispatch (toEmail subject text html : String)
      (attachments : Option (List Attachment))
  | update (bookingId paymentStatus : String) (transactionId : Option String)
      (receiptUrl : String)
deriving DecidableEq

/-- The environment of one workflow run: settings, module-level capability
flags, the data-store contents, and whether the provider send and the store
update succeed when called. -/
structure StoreEnv where
  resendApiKey : Option String
  resendFrom : Option String
  resendAvailable : Bool
  pdfEnabled : Bool
  bookings : String → Option Booking
  payments : String → Option Payment
  profiles : String → Option Profile
  dispatchOk : Bool
  updateOk : Bool

/-- Modelled from the spec: the data-store client's `update_payment_status`
(its implementation is not part of this repository's sources; §6 of the spec
gives only its signature, and §3/§4.1 state the workflow's update mutates the
payment record's fields).  It overwrites the payment row of the given booking
with the given payment status, transaction id and receipt URL. -/
def StoreEnv.withPayment (env : StoreEnv) (bid : String) (p : Payment) : StoreEnv :=
  { env with payments := fun b => if b = bid then some p else env.payments b }

/-- The idempotency test `payment and payment.get("receipt_url") == "email_sent"`. -/
def isSentinel : Option Payment → Bool
  | some p => p.receipt_url = some "email_sent"
  | none => false

/-- Embeds the `summary_lines` list of `_build_booking_pdf`, in source order.
Evaluating the `Guest:` line calls `.get` on `user_profile`, which raises
`AttributeError` when it is `None`; evaluating the `Total Paid:` line calls
`float`, which can raise `ValueError`. -/
def pdfSummaryLines (booking : Booking) (user_profile : Option Profile) :
    Except PyExc (List String) :=
  match user_profile with
  | none => .error .attributeError
  | some up =>
    match pyFloatAmount booking.total_amount with
    | .error e => .error e
    | .ok amt =>
      let space := booking.spaces.getD ⟨none, none⟩
      let statusCap := pyCapitalize (booking.status.getD "")
      .ok [
        "Booking ID: " ++ booking.id.getD "",
        "Guest: " ++ pyOrStr up.full_name (pyOrStr up.email "Guest"),
        if up.truthy then "Email: " ++ up.email.getD "" else "",
        "Space: " ++ space.name.getD "",
        "Location: " ++ pyOrStr space.location "Kuala Lumpur",
        "Date: " ++ format_datetime (booking.start_time.getD ""),
        "End: " ++ format_datetime (booking.end_time.getD ""),
        "Attendees: " ++ (booking.attendees_count.map toString).getD "",
        "Total Paid: RM" ++ fmt2 amt,
        if statusCap = "" then "Status: Confirmed" else "Status: " ++ statusCap]

/-- Embeds `_build_booking_pdf`: `none` result when `PDF_ENABLED` is false;
otherwise the rendered document is the title cell, the summary lines with
every falsy (empty) line skipped, and the closing note. -/
def _build_booking_pdf (pdfEnabled : Bool) (booking : Booking)
    (user_profile : Option Profile) : Except PyExc (Option (List String)) :=
  if ¬ pdfEnabled then .ok none
  else
    match pdfSummaryLines booking user_profile with
    | .error e => .error e
    | .ok lines =>
      .ok (some ("Booking Confirmation" ::
        (lines.filter (fun l => ¬ l = "") ++
          ["Thank you for choosing Infinity8. Please present this confirmation upon arrival."])))

/-- Result of `_send_email_with_attachment`: it can raise before reaching the
provider (missing configuration, missing SDK), raise from the provider call
itself, or complete the send.  When the provider call is reached, the request
it was given is recorded. -/
inductive SendOutcome where
  | raisedBefore (e : PyExc)
  | raisedDuring (ev : Event)
  | sent (ev : Event)
deriving DecidableEq

/-- Embeds `_send_email_with_attachment`: re-check configuration and SDK
availability (raising `RuntimeError` when absent), build the optional base64
attachment list (`attachments or None`), derive the HTML body by joining the
body's lines with `"<br>"`, and call the provider, which raises exactly when
the environment says the dispatch fails. -/
def _send_email_with_attachment (env : StoreEnv) (to_email subject body : String)
    (attachment : Option (List String)) (attachment_name : String) : SendOutcome :=
  if ¬ (truthyStr env.resendApiKey ∧ truthyStr env.resendFrom) then
    .raisedBefore .configError
  else if ¬ env.resendAvailable then
    .raisedBefore .sdkError
  else
    let attachments : Option (List Attachment) :=
      attachment.map (fun content => [⟨attachment_name, content⟩])
    let html_body := String.intercalate "<br>" (pySplitlines body)
    let ev := Event.dispatch to_email subject body html_body attachments
    if env.dispatchOk then .sent ev else .raisedDuring ev

/-- Embeds the `body_lines` list of `send_booking_confirmation_email`, in
source order.  The greeting line calls `.get` on the raw `user_profile`
(raising `AttributeError` when it is `None`), and the amount line calls
`float` (raising `ValueError` on a non-numeric string). -/
def bookingBodyLines (booking : Booking) (user_profile : Option Profile) :
    Except PyExc (List String) :=
  match user_profile with
  | none => .error .attributeError
  | some up =>
    match pyFloatAmount booking.total_amount with
    | .error e => .error e
    | .ok amt =>
      let space := booking.spaces.getD ⟨none, none⟩
      let date_label := format_datetime (booking.start_time.getD "")
      .ok [
        "Hi " ++ pyOrStr up.full_name "there" ++ ",",
        "",
        "Your booking is confirmed. Details:",
        "- Space: " ++ space.name.getD "",
        "- Location: " ++ pyOrStr space.location "Kuala Lumpur",
        "- Starts: " ++ date_label,
        "- Ends: " ++ format_datetime (booking.end_time.getD ""),
        "- Attendees: " ++ (booking.attendees_count.map toString).getD "",
        "- Amount: RM" ++ fmt2 amt,
        "",
        "The confirmation PDF is attached. We look forward to hosting you!",
        "",
        "-- Infinity8 Team"]

/-- The subject line
`f"Booking confirmed: {space.get('name', 'Your space')} on {date_label}"`. -/
def subjectOf (booking : Booking) : String :=
  "Booking confirmed: " ++ (booking.spaces.getD ⟨none, none⟩).name.getD "Your space" ++
    " on " ++ format_datetime (booking.start_time.getD "")

/-- Embeds `send_booking_confirmation_email`.  The result is the list of
external calls made (in order) together with the resulting store state, or
the Python exception the invocation raised to its caller.  Configuration
gate, booking fetch, idempotency check, recipient resolution, content build,
PDF render, dispatch inside `try` (failures swallowed), then the mark-sent
update inside its own `try` (failures logged). -/
def send_booking_confirmation_email (env : StoreEnv) (booking_id : String)
    (fallback_email : Option String) : Except PyExc (List Event × StoreEnv) :=
  if ¬ truthyStr env.resendApiKey ∨ ¬ truthyStr env.resendFrom then .ok ([], env)
  else if ¬ env.resendAvailable then .ok ([], env)
  else
    match env.bookings booking_id with
    | none => .ok ([], env)
    | some booking =>
      if isSentinel (env.payments booking_id) then .ok ([], env)
      else
        match pyOr2 ((env.profiles (booking.user_id.getD "")).bind Profile.email)
            fallback_email with
        | none => .ok ([], env)
        | some recip =>
          match bookingBodyLines booking (env.profiles (booking.user_id.getD "")) with
          | .error e => .error e
          | .ok body_lines =>
            match _build_booking_pdf env.pdfEnabled booking
                (some ((env.profiles (booking.user_id.getD "")).getD ⟨none, none⟩)) with
            | .error e => .error e
            | .ok pdf_bytes =>
              match _send_email_with_attachment env recip (subjectOf booking)
                  (String.intercalate "\n" body_lines) pdf_bytes
                  ("booking-" ++ booking_id ++ ".pdf") with
              | .raisedBefore _ => .ok ([], env)
              | .raisedDuring ev => .ok ([ev], env)
              | .sent ev =>
                match env.payments booking_id with
                | none => .ok ([ev], env)
                | some p =>
                  if env.updateOk then
                    .ok ([ev, Event.update booking_id (p.payment_status.getD "completed")
                            p.transaction_id (pyOrStr p.receipt_url "email_sent")],
                      env.withPayment booking_id
                        ⟨some (p.payment_status.getD "completed"), p.transaction_id,
                         some (pyOrStr p.receipt_url "email_sent")⟩)
                  else
                    .ok ([ev, Event.update booking_id (p.payment_status.getD "completed")
                            p.transaction_id (pyOrStr p.receipt_url "email_sent")], env)

/-- Events of a non-raising run (`none` when the run raised). -/
def runEvents (r : Except PyExc (List Event × StoreEnv)) : Option (List Event) :=
  match r with
  | .ok (evts, _) => some evts
  | .error _ => none

/-- Store state after a run, with a default for a raising run. -/
def afterEnv (r : Except PyExc (List Event × StoreEnv)) (d : StoreEnv) : StoreEnv :=
  match r with
  | .ok (_, env) => env
  | .error _ => d

/-- Whether an event is an email-provider dispatch. -/
def isDispatchEv : Event → Bool
  | .dispatch _ _ _ _ _ => true
  | .update _ _ _ _ => false

/-- Whether a run made at least one dispatch call. -/
def resultHasDispatch (r : Except PyExc (List Event × StoreEnv)) : Bool :=
  match r with
  | .ok (evts, _) => evts.any isDispatchEv
  | .error _ => false

/-- The `update_payment_status` calls in an event list, as argument tuples
(bookingId, paymentStatus, transactionId, receiptUrl). -/
def listUpdateCalls (evts : List Event) :
    List (String × String × Option String × String) :=
  evts.filterMap fun e =>
    match e with
    | .update b ps tid url => some (b, ps, tid, url)
    | .dispatch _ _ _ _ _ => none

/-- The dispatch calls in an event list, projected to (recipient, subject). -/
def listDispatchCalls (evts : List Event) : List (String × String) :=
  evts.filterMap fun e =>
    match e with
    | .dispatch toEmail subject _ _ _ => some (toEmail, subject)
    | .update _ _ _ _ => none

/-- The `update_payment_status` calls of a run. -/
def updateCalls (r : Except PyExc (List Event × StoreEnv)) :
    List (String × String × Option String × String) :=
  match r with
  | .ok (evts, _) => listUpdateCalls evts
  | .error _ => []

/-- The dispatch calls of a run, projected to (recipient, subject). -/
def dispatchCalls (r : Except PyExc (List Event × StoreEnv)) :
    List (String × String) :=
  match r with
  | .ok (evts, _) => listDispatchCalls evts
  | .error _ => []

/-- Text body of a dispatch event (`""` for an update event). -/
def evText : Event → String
  | .dispatch _ _ t _ _ => t
  | .update _ _ _ _ => ""

/-- HTML body of a dispatch event (`""` for an update event). -/
def evHtml : Event → String
  | .dispatch _ _ _ h _ => h
  | .update _ _ _ _ => ""

/-! Concrete data for the scenario claims. -/

/-- The booking of spec §8's scenario: space "Sky Loft" in "KL", times
2024-01-01 10:00–12:00 UTC, 4 attendees, total 150.5. -/
def bookingB1 : Booking :=
  { id := some "B1"
    user_id := some "U1"
    spaces := some ⟨some "Sky Loft", some "KL"⟩
    start_time := some "2024-01-01T10:00:00Z"
    end_time := some "2024-01-01T12:00:00Z"
    attendees_count := some 4
    total_amount := .num (mkRat 301 2)
    status := some "confirmed" }

/-- Profile of the scenario: email "a@x.com", name "Ann". -/
def profAnn : Profile := ⟨some "a@x.com", some "Ann"⟩

/-- Environment of spec §8's scenario: provider configured, SDK and PDF
available, booking "B1" present, no payment row, profile present, dispatch
and update succeed. -/
def envScenario : StoreEnv :=
  { resendApiKey := some "key"
    resendFrom := some "noreply@infinity8.example"
    resendAvailable := true
    pdfEnabled := true
    bookings := fun b => if b = "B1" then some bookingB1 else none
    payments := fun _ => none
    profiles := fun u => if u = "U1" then some profAnn else none
    dispatchOk := true
    updateOk := true }

/-- Payment row whose receipt_url already holds the sentinel. -/
def paySent : Payment := ⟨some "completed", some "t9", some "email_sent"⟩

/-- Scenario environment, but with a sentinel-marked payment row for "B1". -/
def envSent : StoreEnv :=
  { envScenario with payments := fun b => if b = "B1" then some paySent else none }

/-- Payment row holding a real receipt URL (truthy, not the sentinel). -/
def payUrl : Payment := ⟨some "completed", some "t1", some "https://pay/r1"⟩

/-- Scenario environment, but with a real-receipt-URL payment row for "B1". -/
def envUrl : StoreEnv :=
  { envScenario with payments := fun b => if b = "B1" then some payUrl else none }

/-- Payment row with no receipt URL yet. -/
def payFresh : Payment := ⟨some "completed", some "t2", none⟩

/-- Scenario environment, but with an unmarked payment row for "B1". -/
def envFresh : StoreEnv :=
  { envScenario with payments := fun b => if b = "B1" then some payFresh else none }

/-- Scenario environment with no user profile rows at all. -/
def envNoProfile : StoreEnv := { envScenario with profiles := fun _ => none }

/-- Lines of a non-raising `Except` result (`[]` on an exception). -/
def okLines : Except PyExc (List String) → List String
  | .ok l => l
  | .error _ => []

/-- Rendered document of a successful PDF build (`[]` otherwise). -/
def okDoc : Except PyExc (Option (List String)) → List String
  | .ok (some d) => d
  | _ => []

/-- Scenario environment in which the provider call raises. -/
def envDispatchFail : StoreEnv := { envScenario with dispatchOk := false }

/-- Events of the failed-dispatch run. -/
def evtsDispatchFail : List Event :=
  (runEvents (send_booking_confirmation_email envDispatchFail "B1" none)).getD []

/-- Events of the §8 scenario run. -/
def evtsScenario : List Event :=
  (runEvents (send_booking_confirmation_email envScenario "B1" none)).getD []

/-- First event of the §8 scenario run (its dispatch call). -/
def headEvScenario : Event := evtsScenario.headD (Event.update "" "" none "")

/-- Scenario booking whose total_amount is the numeric string "150.5". -/
def bookingAmtStr : Booking := { bookingB1 with total_amount := .str "150.5" }

/-- Scenario booking whose total_amount is absent. -/
def bookingAmtNone : Booking := { bookingB1 with total_amount := .noneV }

/-- Body lines of the absent-amount booking. -/
def linesAmtNone : List String :=
  okLines (bookingBodyLines bookingAmtNone (some profAnn))

/-- Scenario booking whose space has an empty name. -/
def bookingEmptySpace : Booking :=
  { bookingB1 with spaces := some ⟨some "", some "KL"⟩ }

/-- Summary lines of the scenario booking's PDF. -/
def linesPdfScenario : List String :=
  okLines (pdfSummaryLines bookingB1 (some profAnn))

/-- Rendered PDF document of the scenario booking. -/
def docPdfScenario : List String :=
  okDoc (_build_booking_pdf true bookingB1 (some profAnn))

/-! Helper lemmas about the dispatch helper and the workflow. -/

lemma sendEmail_sent_dispatchOk (env : StoreEnv) (a b c : String)
    (att : Option (List String)) (nm : String) (ev : Event)
    (h : _send_email_with_attachment env a b c att nm = .sent ev) :
    env.dispatchOk = true := by
  unfold _send_email_with_attachment at h
  split at h
  · exact absurd h (by simp)
  · split at h
    · exact absurd h (by simp)
    · split at h
      · assumption
      · exact absurd h (by simp)

lemma sendEmail_raisedDuring_dispatchFail (env : StoreEnv) (a b c : String)
    (att : Option (List String)) (nm : String) (ev : Event)
    (h : _send_email_with_attachment env a b c att nm = .raisedDuring ev) :
    env.dispatchOk = false := by
  unfold _send_email_with_attachment at h
  split at h
  · exact absurd h (by simp)
  · split at h
    · exact absurd h (by simp)
    · split at h
      · exact absurd h (by simp)
      · simp_all

lemma sendEmail_event_html (env : StoreEnv) (a b c : String)
    (att : Option (List String)) (nm : String) (ev : Event)
    (h : _send_email_with_attachment env a b c att nm = .sent ev ∨
         _send_email_with_attachment env a b c att nm = .raisedDuring ev) :
    evHtml ev = String.intercalate "<br>" (pySplitlines (evText ev)) ∧
    isDispatchEv ev = true := by
  rcases h with h | h
  · unfold _send_email_with_attachment at h
    split at h
    · exact absurd h (by simp)
    split at h
    · exact absurd h (by simp)
    split at h
    · injection h with h2
      subst h2
      exact ⟨rfl, rfl⟩
    · exact absurd h (by simp)
  · unfold _send_email_with_attachment at h
    split at h
    · exact absurd h (by simp)
    split at h
    · exact absurd h (by simp)
    split at h
    · exact absurd h (by simp)
    · injection h with h2
      subst h2
      exact ⟨rfl, rfl⟩

lemma dispatch_run_marks (env : StoreEnv) (bid : String) (fb : Option String)
    (p : Payment) (hp : env.payments bid = some p)
    (hd : env.dispatchOk = true) (hu : env.updateOk = true)
    (hdisp : resultHasDispatch (send_booking_confirmation_email env bid fb) = true) :
    ∃ ev,
      send_booking_confirmation_email env bid fb =
        .ok ([ev, Event.update bid (p.payment_status.getD "completed")
                p.transaction_id (pyOrStr p.receipt_url "email_sent")],
          env.withPayment bid
            ⟨some (p.payment_status.getD "completed"), p.transaction_id,
             some (pyOrStr p.receipt_url "email_sent")⟩) := by
  unfold send_booking_confirmation_email at hdisp ⊢
  by_cases hg1 : ¬ truthyStr env.resendApiKey = true ∨ ¬ truthyStr env.resendFrom = true
  · rw [if_pos hg1] at hdisp
    simp [resultHasDispatch] at hdisp
  rw [if_neg hg1] at hdisp ⊢
  by_cases hg2 : ¬ env.resendAvailable = true
  · rw [if_pos hg2] at hdisp
    simp [resultHasDispatch] at hdisp
  rw [if_neg hg2] at hdisp ⊢
  rcases heqB : env.bookings bid with _ | booking
  · rw [heqB] at hdisp
    simp [resultHasDispatch] at hdisp
  simp only [heqB] at hdisp ⊢
  by_cases hsent : isSentinel (env.payments bid) = true
  · rw [if_pos hsent] at hdisp
    simp [resultHasDispatch] at hdisp
  rw [if_neg hsent] at hdisp ⊢
  rcases heqR : pyOr2 ((env.profiles (booking.user_id.getD "")).bind Profile.email) fb
    with _ | recip
  · rw [heqR] at hdisp
    simp [resultHasDispatch] at hdisp
  simp only [heqR] at hdisp ⊢
  rcases heqBL : bookingBodyLines booking (env.profiles (booking.user_id.getD ""))
    with e | body_lines
  · rw [heqBL] at hdisp
    simp [resultHasDispatch] at hdisp
  simp only [heqBL] at hdisp ⊢
  rcases heqP : _build_booking_pdf env.pdfEnabled booking
      (some ((env.profiles (booking.user_id.getD "")).getD (Profile.mk none none)))
    with e | pdf_bytes
  · rw [heqP] at hdisp
    simp [resultHasDispatch] at hdisp
  simp only [heqP] at hdisp ⊢
  rcases heqSE : _send_email_with_attachment env recip (subjectOf booking)
      (String.intercalate "\n" body_lines) pdf_bytes ("booking-" ++ bid ++ ".pdf")
    with e | ev | ev
  · rw [heqSE] at hdisp
    simp [resultHasDispatch] at hdisp
  · exact absurd (sendEmail_raisedDuring_dispatchFail _ _ _ _ _ _ _ heqSE) (by simp [hd])
  simp only [heqSE, hp, hu] at hdisp ⊢
  exact ⟨ev, by simp⟩

lemma sentinel_skip (env : StoreEnv) (bid : String) (fb : Option String)
    (p : Payment) (hp : env.payments bid = some p)
    (hr : p.receipt_url = some "email_sent") :
    send_booking_confirmation_email env bid fb = .ok ([], env) := by
  unfold send_booking_confirmation_email
  split
  · rfl
  · split
    · rfl
    · split
      · rfl
      · simp [hp, isSentinel, hr]

lemma pyFloatAmount_error (a : AmountVal) (e : PyExc)
    (h : pyFloatAmount a = .error e) : e = .valueError := by
  rcases a with _ | q | s
  · cases h
  · cases h
  · simp only [pyFloatAmount] at h
    split at h
    · cases h
    · split at h
      · cases h
      · injection h with h2
        exact h2.symm

lemma bookingBodyLines_error (b : Booking) (up : Option Profile) (e : PyExc)
    (h : bookingBodyLines b up = .error e) :
    e = .attributeError ∨ e = .valueError := by
  unfold bookingBodyLines at h
  rcases up with _ | u
  · injection h with h2
    exact Or.inl h2.symm
  · rcases heq : pyFloatAmount b.total_amount with e2 | amt
    · simp only [heq] at h
      injection h with h2
      exact Or.inr (h2 ▸ pyFloatAmount_error b.total_amount e2 heq)
    · simp only [heq] at h
      cases h

lemma pdfSummaryLines_error (b : Booking) (up : Option Profile) (e : PyExc)
    (h : pdfSummaryLines b up = .error e) :
    e = .attributeError ∨ e = .valueError := by
  unfold pdfSummaryLines at h
  rcases up with _ | u
  · injection h with h2
    exact Or.inl h2.symm
  · rcases heq : pyFloatAmount b.total_amount with e2 | amt
    · simp only [heq] at h
      injection h with h2
      exact Or.inr (h2 ▸ pyFloatAmount_error b.total_amount e2 heq)
    · simp only [heq] at h
      cases h

lemma build_pdf_error (pe : Bool) (b : Booking) (up : Option Profile) (e : PyExc)
    (h : _build_booking_pdf pe b up = .error e) :
    e = .attributeError ∨ e = .valueError := by
  unfold _build_booking_pdf at h
  split at h
  · cases h
  · rcases heq : pdfSummaryLines b up with e2 | lines
    · simp only [heq] at h
      injection h with h2
      exact h2 ▸ pdfSummaryLines_error b up e2 heq
    · simp only [heq] at h
      cases h

lemma send_run_cases (env : StoreEnv) (bid : String) (fb : Option String) :
    send_booking_confirmation_email env bid fb = .ok ([], env) ∨
    (∃ e, send_booking_confirmation_email env bid fb = .error e ∧
      (e = .attributeError ∨ e = .valueError)) ∨
    ∃ ev, isDispatchEv ev = true ∧
      evHtml ev = String.intercalate "<br>" (pySplitlines (evText ev)) ∧
      ((env.dispatchOk = false ∧
          send_booking_confirmation_email env bid fb = .ok ([ev], env)) ∨
       (env.dispatchOk = true ∧
         (send_booking_confirmation_email env bid fb = .ok ([ev], env) ∨
          ∃ p, env.payments bid = some p ∧
            (send_booking_confirmation_email env bid fb =
               .ok ([ev, Event.update bid (p.payment_status.getD "completed")
                       p.transaction_id (pyOrStr p.receipt_url "email_sent")],
                 env.withPayment bid
                   ⟨some (p.payment_status.getD "completed"), p.transaction_id,
                    some (pyOrStr p.receipt_url "email_sent")⟩) ∨
             send_booking_confirmation_email env bid fb =
               .ok ([ev, Event.update bid (p.payment_status.getD "completed")
                       p.transaction_id (pyOrStr p.receipt_url "email_sent")],
                 env))))) := by
  unfold send_booking_confirmation_email
  by_cases hg1 : ¬ truthyStr env.resendApiKey = true ∨ ¬ truthyStr env.resendFrom = true
  · rw [if_pos hg1]
    exact Or.inl rfl
  rw [if_neg hg1]
  by_cases hg2 : ¬ env.resendAvailable = true
  · rw [if_pos hg2]
    exact Or.inl rfl
  rw [if_neg hg2]
  rcases heqB : env.bookings bid with _ | booking
  · exact Or.inl rfl
  dsimp only
  by_cases hsent : isSentinel (env.payments bid) = true
  · rw [if_pos hsent]
    exact Or.inl rfl
  rw [if_neg hsent]
  rcases heqR : pyOr2 ((env.profiles (booking.user_id.getD "")).bind Profile.email) fb
    with _ | recip
  · exact Or.inl rfl
  dsimp only
  rcases heqBL : bookingBodyLines booking (env.profiles (booking.user_id.getD ""))
    with e | body_lines
  · exact Or.inr (Or.inl ⟨e, rfl, bookingBodyLines_error _ _ _ heqBL⟩)
  dsimp only
  rcases heqP : _build_booking_pdf env.pdfEnabled booking
      (some ((env.profiles (booking.user_id.getD "")).getD (Profile.mk none none)))
    with e | pdf_bytes
  · exact Or.inr (Or.inl ⟨e, rfl, build_pdf_error _ _ _ _ heqP⟩)
  dsimp only
  rcases heqSE : _send_email_with_attachment env recip (subjectOf booking)
      (String.intercalate "\n" body_lines) pdf_bytes ("booking-" ++ bid ++ ".pdf")
    with e | ev | ev
  · exact Or.inl rfl
  · refine Or.inr (Or.inr ⟨ev, (sendEmail_event_html _ _ _ _ _ _ _ (Or.inr heqSE)).2,
      (sendEmail_event_html _ _ _ _ _ _ _ (Or.inr heqSE)).1, Or.inl ⟨?_, rfl⟩⟩)
    exact sendEmail_raisedDuring_dispatchFail _ _ _ _ _ _ _ heqSE
  · have hdOk := sendEmail_sent_dispatchOk _ _ _ _ _ _ _ heqSE
    have hev := sendEmail_event_html _ _ _ _ _ _ _ (Or.inl heqSE)
    dsimp only
    rcases heqPay : env.payments bid with _ | p
    · exact Or.inr (Or.inr ⟨ev, hev.2, hev.1, Or.inr ⟨hdOk, Or.inl rfl⟩⟩)
    · dsimp only
      by_cases hup : env.updateOk = true
      · rw [if_pos hup]
        exact Or.inr (Or.inr ⟨ev, hev.2, hev.1,
          Or.inr ⟨hdOk, Or.inr ⟨p, rfl, Or.inl rfl⟩⟩⟩)
      · rw [if_neg hup]
        exact Or.inr (Or.inr ⟨ev, hev.2, hev.1,
          Or.inr ⟨hdOk, Or.inr ⟨p, rfl, Or.inr rfl⟩⟩⟩)

/-! Claim theorems. -/

/-- C1 (code-bug evaluation): booking "B1" has a payment row with
payment_status "completed", transaction_id "t1" and a real receipt URL
"https://pay/r1"; after the successful dispatch exactly one
`update_payment_status` call occurs and it preserves payment_status and
transaction_id — but, contrary to the claim, `payment.get("receipt_url") or
"email_sent"` passes the OLD receipt URL through instead of the
"email_sent" sentinel. -/
theorem mark_sent_keeps_existing_receipt_url :
    updateCalls (send_booking_confirmation_email envUrl "B1" none) =
      [("B1", "completed", some "t1", "https://pay/r1")] ∧
    ("https://pay/r1" : String) ≠ "email_sent" := by decide

/-- C2 counterexample: in the §8 scenario environment (booking "B1" exists,
no payment row, dispatch succeeds) a first invocation dispatches the email,
leaves the store unchanged, and a second sequential invocation dispatches
again — so delivery is not at-most-once independent of how many times the
workflow is invoked. -/
theorem resend_after_success_without_payment_row :
    resultHasDispatch (send_booking_confirmation_email envScenario "B1" none) = true ∧
    resultHasDispatch (send_booking_confirmation_email
      (afterEnv (send_booking_confirmation_email envScenario "B1" none) envScenario)
      "B1" none) = true := by decide

/-- C2 (amended): once a booking's payment row holds the sentinel, an
invocation makes no calls at all; and after one successful send — provided
the booking had a payment row whose receipt_url was absent or empty and the
mark-sent update succeeds — no later sequential invocation dispatches
again. -/
theorem at_most_once_after_marked_send (env : StoreEnv) (bid : String)
    (fb : Option String) (p : Payment)
    (hp : env.payments bid = some p)
    (hfresh : p.receipt_url = none ∨ p.receipt_url = some "")
    (hd : env.dispatchOk = true) (hu : env.updateOk = true)
    (hdisp : resultHasDispatch (send_booking_confirmation_email env bid fb) = true) :
    (∀ env2 q fb2, env2.payments bid = some q → q.receipt_url = some "email_sent" →
        send_booking_confirmation_email env2 bid fb2 = .ok ([], env2)) ∧
    ∀ fb2,
      send_booking_confirmation_email
          (afterEnv (send_booking_confirmation_email env bid fb) env) bid fb2 =
        .ok ([], afterEnv (send_booking_confirmation_email env bid fb) env) := by
  refine ⟨fun env2 q fb2 hq hrq => sentinel_skip env2 bid fb2 q hq hrq, ?_⟩
  intro fb2
  obtain ⟨ev, hrun⟩ := dispatch_run_marks env bid fb p hp hd hu hdisp
  have hurl : pyOrStr p.receipt_url "email_sent" = "email_sent" := by
    rcases hfresh with h | h <;> simp [pyOrStr, h]
  rw [hrun]
  simp only [afterEnv]
  refine sentinel_skip _ bid fb2
    ⟨some (p.payment_status.getD "completed"), p.transaction_id,
     some (pyOrStr p.receipt_url "email_sent")⟩ ?_ ?_
  · simp [StoreEnv.withPayment]
  · simp [hurl]

/-- C2 witness: the amended at-most-once property applied to the concrete
environment with an unmarked payment row; the second invocation is a
no-op. -/
theorem at_most_once_after_marked_send_witness :
    send_booking_confirmation_email
        (afterEnv (send_booking_confirmation_email envFresh "B1" none) envFresh)
        "B1" none =
      .ok ([], afterEnv (send_booking_confirmation_email envFresh "B1" none) envFresh) :=
  (at_most_once_after_marked_send envFresh "B1" none payFresh rfl (Or.inl rfl)
    rfl rfl (by decide)).2 none

/-- C3: for every booking whose payment row has receipt_url exactly
"email_sent", invoking the workflow performs zero provider calls and zero
store updates: it returns right after the idempotency check with an empty
event list and an unchanged store. -/
theorem sentinel_receipt_skips_all_calls (env : StoreEnv) (bid : String)
    (fb : Option String) (p : Payment) (hp : env.payments bid = some p)
    (hr : p.receipt_url = some "email_sent") :
    send_booking_confirmation_email env bid fb = .ok ([], env) :=
  sentinel_skip env bid fb p hp hr

/-- C3 witness: the sentinel-marked concrete environment yields the empty
run. -/
theorem sentinel_receipt_skips_all_calls_witness :
    send_booking_confirmation_email envSent "B1" none = .ok ([], envSent) :=
  sentinel_receipt_skips_all_calls envSent "B1" none paySent rfl rfl

/-- C5 (code-bug evaluation): with booking "B1" present, no user profile row
and a fallback email supplied, the workflow raises `AttributeError` to its
caller (the body line `user_profile.get('full_name')` dereferences `None`),
contradicting the never-raises contract. -/
theorem missing_profile_with_fallback_raises :
    send_booking_confirmation_email envNoProfile "B1" (some "x@y.com") =
      .error .attributeError := rfl

/-- C8: in the §8 scenario (booking "B1", no payment row, profile
"a@x.com"/"Ann", space "Sky Loft" in "KL", 2024-01-01 10:00–12:00, 4
attendees, total 150.5) the workflow makes exactly one dispatch call, to
"a@x.com" with subject "Booking confirmed: Sky Loft on January 01, 2024
10:00 AM", and no payment update. -/
theorem scenario_b1_subject_dispatch_no_update :
    dispatchCalls (send_booking_confirmation_email envScenario "B1" none) =
      [("a@x.com", "Booking confirmed: Sky Loft on January 01, 2024 10:00 AM")] ∧
    updateCalls (send_booking_confirmation_email envScenario "B1" none) = [] := by
  decide

/-- C4: if the email dispatch raises, the workflow swallows the exception
(it never propagates a dispatch error) and returns without making any
`update_payment_status` call and without changing the store. -/
theorem dispatch_failure_swallowed_no_update (env : StoreEnv) (bid : String)
    (fb : Option String) (hd : env.dispatchOk = false) :
    (∀ evts env2, send_booking_confirmation_email env bid fb = .ok (evts, env2) →
        listUpdateCalls evts = [] ∧ env2 = env) ∧
    ∀ e, send_booking_confirmation_email env bid fb = .error e →
      e ≠ .dispatchError := by
  rcases send_run_cases env bid fb with hc | ⟨e, hc, he⟩ | ⟨ev0, hevd, _, hcase⟩
  · constructor
    · intro evts env2 hok
      rw [hc] at hok
      injection hok with h2
      injection h2 with h3 h4
      subst h3
      subst h4
      exact ⟨rfl, rfl⟩
    · intro e herr
      rw [hc] at herr
      cases herr
  · constructor
    · intro evts env2 hok
      rw [hc] at hok
      cases hok
    · intro e2 herr
      rw [hc] at herr
      injection herr with h2
      subst h2
      rcases he with rfl | rfl <;> decide
  · rcases hcase with ⟨_, hok0⟩ | ⟨hdt, _⟩
    · constructor
      · intro evts env2 hok
        rw [hok0] at hok
        injection hok with h2
        injection h2 with h3 h4
        subst h3
        subst h4
        refine ⟨?_, rfl⟩
        cases ev0 with
        | dispatch a b c d e => rfl
        | update a b c d => simp [isDispatchEv] at hevd
      · intro e herr
        rw [hok0] at herr
        cases herr
    · exact absurd hdt (by simp [hd])

/-- C4 witness: in the concrete failed-dispatch environment the run completes
without raising, makes no update call, and leaves the store unchanged. -/
theorem dispatch_failure_swallowed_no_update_witness :
    listUpdateCalls evtsDispatchFail = [] ∧ envDispatchFail = envDispatchFail :=
  (dispatch_failure_swallowed_no_update envDispatchFail "B1" none rfl).1
    evtsDispatchFail envDispatchFail rfl

/-- C6 counterexample: a booking whose total_amount is the numeric string
"150.5" renders its amount line as "- Amount: RM150.50", not
"- Amount: RM0.00". -/
theorem numeric_string_amount_renders_its_value :
    (okLines (bookingBodyLines bookingAmtStr (some profAnn)))[8]? =
      some "- Amount: RM150.50" ∧
    ¬ (okLines (bookingBodyLines bookingAmtStr (some profAnn)))[8]? =
      some "- Amount: RM0.00" := by decide

/-- C6 (amended): for every booking whose total_amount is 0, None (absent),
the empty string, or a numeric string parsing to the positive float zero
(no leading minus sign — `"-0"` is the float `-0.0` and renders "RM-0.00"),
the amount line of the email body renders exactly "RM0.00". -/
theorem zeroish_amount_renders_rm0 (booking : Booking) (up : Profile)
    (lines : List String)
    (hz : booking.total_amount = .noneV ∨ booking.total_amount = .num 0 ∨
      ∃ s, booking.total_amount = .str s ∧
        (s = "" ∨ parseFloat s = some ⟨false, 0⟩))
    (h : bookingBodyLines booking (some up) = .ok lines) :
    lines[8]? = some "- Amount: RM0.00" := by
  have hamt : pyFloatAmount booking.total_amount = .ok ⟨false, 0⟩ := by
    rcases hz with hz | hz | ⟨s, hz, hs⟩
    · rw [hz]
      rfl
    · rw [hz]
      rfl
    · rw [hz]
      by_cases hse : s = ""
      · subst hse
        rfl
      · rcases hs with rfl | hs
        · exact absurd rfl hse
        · simp [pyFloatAmount, hse, hs]
  simp only [bookingBodyLines, hamt] at h
  injection h with h2
  subst h2
  rfl

/-- C6 witness: the absent-amount scenario booking's body line 8 is exactly
"- Amount: RM0.00". -/
theorem zeroish_amount_renders_rm0_witness :
    linesAmtNone[8]? = some "- Amount: RM0.00" :=
  zeroish_amount_renders_rm0 bookingAmtNone profAnn linesAmtNone (Or.inl rfl) rfl

/-- C7: `_format_datetime` is total: an input the (Z-replaced) ISO parse
rejects is returned unchanged, and a parseable input is rendered through the
strftime label. -/
theorem format_datetime_passthrough_or_label (s : String) :
    (fromisoformat (replaceZ s) = none → format_datetime s = s) ∧
    ∀ dt, fromisoformat (replaceZ s) = some dt →
      format_datetime s = strftimeLabel dt := by
  constructor
  · intro h
    unfold format_datetime
    rw [h]
  · intro dt h
    unfold format_datetime
    rw [h]

/-- C7 witness: a malformed timestamp passes through unchanged, and so does
a one-digit-fraction timestamp (which only Python ≥ 3.11 would parse); a
valid full timestamp and a valid hour-only timestamp are both rendered as
labels. -/
theorem format_datetime_passthrough_or_label_witness :
    format_datetime "2024-99-99T10:00:00" = "2024-99-99T10:00:00" ∧
    format_datetime "2024-01-01T10:00:00.5" = "2024-01-01T10:00:00.5" ∧
    format_datetime "2024-01-01T10:00:00Z" = strftimeLabel ⟨2024, 1, 1, 10, 0, 0⟩ ∧
    format_datetime "2024-01-01T10" = strftimeLabel ⟨2024, 1, 1, 10, 0, 0⟩ :=
  ⟨(format_datetime_passthrough_or_label "2024-99-99T10:00:00").1 (by decide),
   (format_datetime_passthrough_or_label "2024-01-01T10:00:00.5").1 (by decide),
   (format_datetime_passthrough_or_label "2024-01-01T10:00:00Z").2
     ⟨2024, 1, 1, 10, 0, 0⟩ (by decide),
   (format_datetime_passthrough_or_label "2024-01-01T10").2
     ⟨2024, 1, 1, 10, 0, 0⟩ (by decide)⟩

/-- C9 counterexample: a booking whose space name is the empty string still
contributes the line "Space: " to the PDF summary block — a line with an
empty value but a non-empty label is NOT omitted. -/
theorem empty_space_value_line_is_kept :
    "Space: " ∈ okDoc (_build_booking_pdf true bookingEmptySpace (some profAnn)) := by
  decide

/-- C9 (amended): the PDF build omits exactly the summary lines that are the
empty string (which only the Email line can be): every line of the rendered
document is non-empty, and every non-empty summary line appears in the
document. -/
theorem pdf_omits_only_fully_empty_lines (booking : Booking) (up : Option Profile)
    (lines : List String) (doc : List String)
    (hl : pdfSummaryLines booking up = .ok lines)
    (hd : _build_booking_pdf true booking up = .ok (some doc)) :
    (∀ l ∈ doc, l ≠ "") ∧ ∀ l ∈ lines, l ≠ "" → l ∈ doc := by
  unfold _build_booking_pdf at hd
  rw [if_neg (by simp)] at hd
  simp only [hl] at hd
  injection hd with h2
  injection h2 with h3
  subst h3
  constructor
  · intro l hl2
    simp only [List.mem_cons, List.mem_append, List.mem_filter,
      List.mem_singleton] at hl2
    rcases hl2 with rfl | ⟨_, hdec⟩ | rfl | h0
    · decide
    · simpa using hdec
    · decide
    · cases h0
  · intro l hml hne
    simp only [List.mem_cons, List.mem_append, List.mem_filter]
    exact Or.inr (Or.inl ⟨hml, by simpa using hne⟩)

/-- C9 witness: in the scenario booking's PDF, the non-empty Email summary
line is kept in the rendered document. -/
theorem pdf_omits_only_fully_empty_lines_witness :
    "Email: a@x.com" ∈ docPdfScenario :=
  (pdf_omits_only_fully_empty_lines bookingB1 (some profAnn) linesPdfScenario
    docPdfScenario rfl rfl).2 "Email: a@x.com" (by decide) (by decide)

/-- C10: every dispatch event the workflow emits carries an HTML body equal
to the plaintext body's lines joined with "<br>"
(`"<br>".join(body.splitlines())`). -/
theorem dispatch_html_is_br_join_of_text (env : StoreEnv) (bid : String)
    (fb : Option String) (evts : List Event) (env2 : StoreEnv)
    (h : send_booking_confirmation_email env bid fb = .ok (evts, env2)) :
    ∀ ev ∈ evts, isDispatchEv ev = true →
      evHtml ev = String.intercalate "<br>" (pySplitlines (evText ev)) := by
  rcases send_run_cases env bid fb with hc | ⟨e, hc, _⟩ | ⟨ev0, hevd, hhtml, hcase⟩
  · rw [hc] at h
    injection h with h2
    injection h2 with h3 h4
    subst h3
    intro ev hev
    cases hev
  · rw [hc] at h
    cases h
  · rcases hcase with ⟨_, hok0⟩ | ⟨_, hok0 | ⟨p, _, hok0 | hok0⟩⟩ <;>
      (rw [hok0] at h
       injection h with h2
       injection h2 with h3 h4
       subst h3
       intro ev hev hdev)
    · rcases List.mem_cons.mp hev with rfl | hev2
      · exact hhtml
      · cases hev2
    · rcases List.mem_cons.mp hev with rfl | hev2
      · exact hhtml
      · cases hev2
    · rcases List.mem_cons.mp hev with rfl | hev2
      · exact hhtml
      · rcases List.mem_cons.mp hev2 with rfl | hev3
        · simp [isDispatchEv] at hdev
        · cases hev3
    · rcases List.mem_cons.mp hev with rfl | hev2
      · exact hhtml
      · rcases List.mem_cons.mp hev2 with rfl | hev3
        · simp [isDispatchEv] at hdev
        · cases hev3

set_option maxRecDepth 4000 in
/-- C10 witness: the §8 scenario's dispatch event satisfies the br-join
relation between its plaintext and HTML bodies. -/
theorem dispatch_html_is_br_join_of_text_witness :
    evHtml headEvScenario =
      String.intercalate "<br>" (pySplitlines (evText headEvScenario)) :=
  dispatch_html_is_br_join_of_text envScenario "B1" none evtsScenario envScenario
    rfl headEvScenario (by decide) (by decide)
